import Mathlib

/-!
Shallow embedding of `internal/network/node.go` of the bdns repository.

The node coordination layer is modelled as pure state-transition functions:
each Go method becomes a Lean function from inputs and a `NodeState` to a
new `NodeState` together with a trace of observable effects (`Event`s:
log lines, ledger calls, pool insertions, table upserts, outbound gossip
broadcasts and direct sends, stream closure).  Go maps become functions
into `Option`; `nil` maps are `none`; byte slices are `List Nat`;
JSON decoding of an envelope payload is modelled by a tagged `Payload`
type with per-type decoders returning `Option` (decode failure = `none`),
and Go's `json.Unmarshal` leaving the target at its zero value on failure
is modelled by explicit zero values.
-/

namespace BDNS

/-- Byte slices (`[]byte`). -/
abbrev Bytes := List Nat

/-- `consensus.SecretValues`: the per-participant commit-reveal pair. -/
structure SecretValues where
  SecretValue : Int
  RandomValue : Int
  deriving DecidableEq, Repr

/-- `blockchain.Transaction` as used by `node.go` (the fields read by
`DNSRequestHandler` from the record returned by `IndexManager.GetIP`). -/
structure Transaction where
  Timestamp : Int
  DomainName : String
  IP : String
  TTL : Int
  OwnerKey : Bytes
  Signature : Bytes
  deriving DecidableEq, Repr

/-- Go zero value of `blockchain.Transaction` (what `json.Unmarshal`
leaves behind when it fails on garbage input). -/
def zeroTransaction : Transaction :=
  { Timestamp := 0, DomainName := "", IP := "", TTL := 0, OwnerKey := [], Signature := [] }

/-- `blockchain.Block`: opaque to the node layer (forwarded to the ledger). -/
structure Block where
  data : Bytes
  deriving DecidableEq, Repr

/-- Go zero value of `blockchain.Block`. -/
def zeroBlock : Block := { data := [] }

/-- `BDNSRequest` (`DomainQuery {DomainName}`). -/
structure BDNSRequest where
  DomainName : String
  deriving DecidableEq, Repr

/-- Go zero value of `BDNSRequest`. -/
def zeroBDNSRequest : BDNSRequest := { DomainName := "" }

/-- `BDNSResponse` (`DomainRecord {Timestamp, DomainName, IP, TTL, OwnerKey, Signature}`). -/
structure BDNSResponse where
  Timestamp : Int
  DomainName : String
  IP : String
  TTL : Int
  OwnerKey : Bytes
  Signature : Bytes
  deriving DecidableEq, Repr

/-- Go zero value of `BDNSResponse`. -/
def zeroBDNSResponse : BDNSResponse :=
  { Timestamp := 0, DomainName := "", IP := "", TTL := 0, OwnerKey := [], Signature := [] }

/-- `RandomNumberMsg` (`RandomContribution {Epoch, SecretValue, RandomValue, Sender}`). -/
structure RandomNumberMsg where
  Epoch : Int
  SecretValue : Int
  RandomValue : Int
  Sender : Bytes
  deriving DecidableEq, Repr

/-- Envelope `Type` enum: `DNSRequest, DNSResponse, MsgTransaction, MsgBlock, MsgRandomNumber`. -/
inductive MessageType where
  | DNSRequest
  | DNSResponse
  | MsgTransaction
  | MsgBlock
  | MsgRandomNumber
  deriving DecidableEq, Repr

/-- Envelope `Content`: an opaque serialized payload.  A well-formed payload
carries one of the protocol's message bodies; `garbage` stands for any byte
string that decodes as none of them. -/
inductive Payload where
  | req (q : BDNSRequest)
  | res (r : BDNSResponse)
  | tx (t : Transaction)
  | block (b : Block)
  | rnd (m : RandomNumberMsg)
  | garbage
  deriving DecidableEq, Repr

/-- `json.Unmarshal(msg.Content, &req)` for `BDNSRequest`. -/
def decodeReq : Payload → Option BDNSRequest
  | .req q => some q
  | _ => none

/-- `json.Unmarshal(response.Content, &res)` for `BDNSResponse`. -/
def decodeRes : Payload → Option BDNSResponse
  | .res r => some r
  | _ => none

/-- `json.Unmarshal(msg.Content, &tx)` for `blockchain.Transaction`. -/
def decodeTx : Payload → Option Transaction
  | .tx t => some t
  | _ => none

/-- `json.Unmarshal(msg.Content, &block)` for `blockchain.Block`. -/
def decodeBlock : Payload → Option Block
  | .block b => some b
  | _ => none

/-- `json.Unmarshal(msg.Content, &randomMsg)` for `RandomNumberMsg`. -/
def decodeRnd : Payload → Option RandomNumberMsg
  | .rnd m => some m
  | _ => none

/-- `GossipMessage` / Envelope: `{Type, Content, Sender}` (the Go field
`Type` is spelled `MType` here because `Type` is reserved in Lean). -/
structure GossipMessage where
  MType : MessageType
  Content : Payload
  Sender : String
  deriving DecidableEq, Repr

/-- `EpochRandoms`: `map[int64]map[string]consensus.SecretValues`.
A missing outer entry (`nil` inner map) is `none`. -/
abbrev EpochTable := Int → Option (String → Option SecretValues)

/-- Reading `tbl[e][p]` (Go map reads on `nil`/missing keys yield the zero
`(v, false)` pair; we observe presence via `Option`). -/
def lookupER (tbl : EpochTable) (e : Int) (p : String) : Option SecretValues :=
  match tbl e with
  | none => none
  | some m => m p

/-- Hex digit, lowercase, as produced by Go's `encoding/hex`. -/
def hexChar (n : Nat) : Char :=
  if n < 10 then Char.ofNat (48 + n) else Char.ofNat (87 + n)

/-- `hex.EncodeToString`: two lowercase hex characters per byte. -/
def hexEncode (bs : Bytes) : String :=
  String.mk (bs.foldr (fun b acc => hexChar (b / 16 % 16) :: hexChar (b % 16) :: acc) [])

/-- Observable effects of the node's operations: log lines, ledger calls,
pool mutations, epoch-table upserts, outbound messages, stream closure. -/
inductive Event where
  | logDecodeFailure
  | logInvalidType
  | streamClosed
  | poolInsert (t : Transaction)
  | ledgerAddTransaction (t : Transaction)
  | ledgerAddBlock (b : Block)
  | tableUpsert (epoch : Int) (sender : String) (sv rv : Int)
  | directSend (mt : MessageType) (r : BDNSResponse) (dest : String)
  | gossipSend (mt : MessageType) (p : Payload)
  | dnsResponseLogged (domain ip : String)
  deriving DecidableEq, Repr

/-- The mutable state owned by a `Node` (identity, registry keys, guarded
maps, ledger handles).  The `IndexManager` is abstracted by its lookup view
`Index : domain → Option Transaction` (`GetRecord(domain) -> record|absent`). -/
structure NodeState where
  RegistryKeys : List Bytes
  KeyPairPub : Bytes
  SlotLeaders : Int → Option Bytes
  TransactionPool : List Transaction
  Index : String → Option Transaction
  Blockchain : Option (List Block)
  RandomNumber : Bytes
  EpochRandoms : EpochTable

/-- `ConsensusScheme.CommitmentPhase(registryKeys)`: external collaborator,
returns `(commitments, map[participantID]SecretValues)`; the commitments are
opaque and unused by `Node`, so they are modelled as `Unit`. -/
abbrev CommitmentPhaseFn := List Bytes → Unit × (String → Option SecretValues)

/-- The inner map of the epoch table at `e`, where a `nil` inner map reads
as the empty map (Go's `make` in the handler's `nil` check). -/
def innerMap (tbl : EpochTable) (e : Int) : String → Option SecretValues :=
  match tbl e with
  | none => fun _ => none
  | some m => m

/-- `RandomNumberHandler`'s effect on the `EpochRandoms` table: create the
inner map for `epoch` if it is `nil`, then set `tbl[epoch][sender] = {sv, rv}`. -/
def RandomNumberHandlerTbl (epoch : Int) (sender : String) (sv rv : Int)
    (tbl : EpochTable) : EpochTable :=
  fun e =>
    if e = epoch then
      some (fun p => if p = sender then some ⟨sv, rv⟩ else innerMap tbl epoch p)
    else tbl e

/-- `Node.RandomNumberHandler(epoch, sender, secretValue, randomValue)`:
upsert the single `(epoch, sender)` cell of `EpochRandoms` under `RandomMutex`. -/
def RandomNumberHandler (epoch : Int) (sender : String) (sv rv : Int)
    (s : NodeState) : NodeState × List Event :=
  ({ s with EpochRandoms := RandomNumberHandlerTbl epoch sender sv rv s.EpochRandoms },
   [.tableUpsert epoch sender sv rv])

/-- Modelled from the spec: `Node.AddTransaction` is called by `node.go` but
defined in a file not under `src/`.  Per §4.4 it inserts the transaction into
the guarded pool under a locally assigned index and forwards it to the ledger. -/
def AddTransaction (t : Transaction) (s : NodeState) : NodeState × List Event :=
  ({ s with TransactionPool := s.TransactionPool ++ [t] },
   [.poolInsert t, .ledgerAddTransaction t])

/-- Modelled from the spec: `Node.AddBlock` is called by `node.go` but defined
in a file not under `src/`.  Per §4.4 it only forwards the block to the ledger
for chain extension; `Node` performs no block validation itself. -/
def AddBlock (b : Block) (s : NodeState) : NodeState × List Event :=
  (s, [.ledgerAddBlock b])

/-- `Node.DNSRequestHandler(req, reqSender)`: look up the domain in the local
ledger index; if present, build a `BDNSResponse` from the stored record and
send it as a direct message to `reqSender`; if absent, send nothing. -/
def DNSRequestHandler (req : BDNSRequest) (reqSender : String)
    (s : NodeState) : NodeState × List Event :=
  match s.Index req.DomainName with
  | some tx =>
      (s, [.directSend .DNSResponse
            { Timestamp := tx.Timestamp, DomainName := tx.DomainName, IP := tx.IP,
              TTL := tx.TTL, OwnerKey := tx.OwnerKey, Signature := tx.Signature }
            reqSender])
  | none => (s, [])

/-- `Node.DNSResponseHandler(res)`: print the received domain name and IP. -/
def DNSResponseHandler (res : BDNSResponse) (s : NodeState) : NodeState × List Event :=
  (s, [.dnsResponseLogged res.DomainName res.IP])

/-- `Node.BroadcastTransaction(tx)`: apply locally via `AddTransaction`,
then broadcast the transaction over gossip. -/
def BroadcastTransaction (tx : Transaction) (s : NodeState) : NodeState × List Event :=
  let p := AddTransaction tx s
  (p.1, p.2 ++ [.gossipSend .MsgTransaction (.tx tx)])

/-- `Node.MakeDNSRequest(domainName)`: broadcast a `BDNSRequest` over gossip. -/
def MakeDNSRequest (domainName : String) (s : NodeState) : NodeState × List Event :=
  (s, [.gossipSend .DNSRequest (.req { DomainName := domainName })])

/-- `Node.BroadcastRandomNumber(epoch, registryKeys)`: run the commitment
phase over `n.RegistryKeys`, extract the node's own entry by the hex encoding
of its public key (a Go map read, zero value `{0, 0}` if absent), apply it
locally via `RandomNumberHandler`, then broadcast the `RandomNumberMsg`.
The `registryKeys` parameter appears in the signature but is never read. -/
def BroadcastRandomNumber (cp : CommitmentPhaseFn) (epoch : Int)
    (registryKeys : List Bytes) (s : NodeState) : NodeState × List Event :=
  let secretValues := (cp s.RegistryKeys).2
  let nodeSecretValues := (secretValues (hexEncode s.KeyPairPub)).getD ⟨0, 0⟩
  let msg : RandomNumberMsg :=
    { Epoch := epoch, SecretValue := nodeSecretValues.SecretValue,
      RandomValue := nodeSecretValues.RandomValue, Sender := s.KeyPairPub }
  let p := RandomNumberHandler epoch (hexEncode s.KeyPairPub)
    nodeSecretValues.SecretValue nodeSecretValues.RandomValue s
  (p.1, p.2 ++ [.gossipSend .MsgRandomNumber (.rnd msg)])

/-- One iteration of `Node.HandleGossip`'s dispatch switch on one envelope.
On decode failure the error is logged; for `DNSRequest`, `MsgTransaction`
and `MsgBlock` the handler is then still invoked with the zero-valued
payload (the `switch` cases have no `continue` after the error log); only
the `MsgRandomNumber` case `continue`s, skipping its handler.  An envelope
whose `Type` has no case (`DNSResponse`) is ignored. -/
def handleGossipStep (msg : GossipMessage) (s : NodeState) : NodeState × List Event :=
  match msg.MType with
  | .DNSRequest =>
      match decodeReq msg.Content with
      | some req => DNSRequestHandler req msg.Sender s
      | none =>
          let p := DNSRequestHandler zeroBDNSRequest msg.Sender s
          (p.1, .logDecodeFailure :: p.2)
  | .MsgTransaction =>
      match decodeTx msg.Content with
      | some t => AddTransaction t s
      | none =>
          let p := AddTransaction zeroTransaction s
          (p.1, .logDecodeFailure :: p.2)
  | .MsgBlock =>
      match decodeBlock msg.Content with
      | some b => AddBlock b s
      | none =>
          let p := AddBlock zeroBlock s
          (p.1, .logDecodeFailure :: p.2)
  | .MsgRandomNumber =>
      match decodeRnd msg.Content with
      | some m =>
          RandomNumberHandler m.Epoch (hexEncode m.Sender) m.SecretValue m.RandomValue s
      | none => (s, [.logDecodeFailure])
  | .DNSResponse => (s, [])

/-- `Node.HandleGossip`: consume the inbound envelope sequence in FIFO order,
dispatching each envelope in turn; the loop exits when the channel closes
(end of list) and never propagates an error. -/
def HandleGossip (msgs : List GossipMessage) (s : NodeState) : NodeState × List Event :=
  match msgs with
  | [] => (s, [])
  | msg :: rest =>
      let p := handleGossipStep msg s
      let q := HandleGossip rest p.1
      (q.1, p.2 ++ q.2)

/-- The `"/dns-response"` stream callback registered by
`Node.ListenForDirectMessages`.  The stream's content either fails to decode
as an envelope (`none`) — logged, no handler — or yields an envelope:
a `Type` other than `DNSResponse` is rejected (logged, no reply); otherwise
the payload is unmarshalled as `BDNSResponse` (zero value on failure, which
is still handed to the handler — no early return after that log) and
dispatched to `DNSResponseHandler`.  `defer s.Close()` closes the stream on
every path. -/
def ListenForDirectMessages (raw : Option GossipMessage) (s : NodeState) :
    NodeState × List Event :=
  match raw with
  | none => (s, [.logDecodeFailure, .streamClosed])
  | some response =>
      if response.MType ≠ MessageType.DNSResponse then
        (s, [.logInvalidType, .streamClosed])
      else
        match decodeRes response.Content with
        | some res =>
            let p := DNSResponseHandler res s
            (p.1, p.2 ++ [.streamClosed])
        | none =>
            let p := DNSResponseHandler zeroBDNSResponse s
            (p.1, .logDecodeFailure :: p.2 ++ [.streamClosed])

/-- Outcome of `Node.GenerateRandomNumber`: `log.Panic` terminates the
process, otherwise the node stores and returns the generated bytes. -/
inductive GenResult where
  | panicked
  | ok (s : NodeState) (bytes : Bytes)

/-- `Node.GenerateRandomNumber`: make a 32-byte buffer, fill it from the
entropy source (`rand.Read`), `log.Panic` on error; on success store the
bytes in `n.RandomNumber` and return them.  The entropy source is external:
`none` models a read error, `some f` the 32 bytes read. -/
def GenerateRandomNumber (entropy : Option (Fin 32 → Nat)) (s : NodeState) : GenResult :=
  match entropy with
  | none => .panicked
  | some f =>
      let randomBytes := List.ofFn f
      .ok { s with RandomNumber := randomBytes } randomBytes

/-- A randomness contribution as keyed in the epoch table:
one `(epoch, sender)` cell with its values. -/
structure Contribution where
  epoch : Int
  sender : String
  sv : Int
  rv : Int
  deriving DecidableEq, Repr

/-- The table key of a contribution. -/
def Contribution.key (c : Contribution) : Int × String := (c.epoch, c.sender)

/-- Apply one contribution to the epoch table via the handler. -/
def applyContribution (tbl : EpochTable) (c : Contribution) : EpochTable :=
  RandomNumberHandlerTbl c.epoch c.sender c.sv c.rv tbl

/-- Apply a finite sequence of contributions in order. -/
def applyAll (l : List Contribution) (tbl : EpochTable) : EpochTable :=
  l.foldl applyContribution tbl

/-- The empty epoch table (`make(map[int64]map[string]consensus.SecretValues)`). -/
def emptyTable : EpochTable := fun _ => none

/-- A local application of a message to the node's own state (pool insertion
or epoch-table upsert). -/
def isLocalApply : Event → Bool
  | .poolInsert _ => true
  | .tableUpsert _ _ _ _ => true
  | _ => false

/-- An outbound gossip broadcast. -/
def isGossipSendEvent : Event → Bool
  | .gossipSend _ _ => true
  | _ => false

/-- A freshly initialized node state with empty maps. -/
def sampleState : NodeState :=
  { RegistryKeys := [], KeyPairPub := [], SlotLeaders := fun _ => none,
    TransactionPool := [], Index := fun _ => none, Blockchain := none,
    RandomNumber := [], EpochRandoms := emptyTable }

/-- A concrete ledger record for `example.bdns`. -/
def sampleRecord : Transaction :=
  { Timestamp := 1700000000, DomainName := "example.bdns", IP := "10.0.0.1",
    TTL := 3600, OwnerKey := [1], Signature := [2] }

/-- A node state whose ledger index holds exactly the `example.bdns` record. -/
def sampleIndexState : NodeState :=
  { sampleState with Index := fun d => if d = "example.bdns" then some sampleRecord else none }

/-- A concrete DNS response payload. -/
def sampleResponse : BDNSResponse :=
  { Timestamp := 1700000000, DomainName := "example.bdns", IP := "10.0.0.1",
    TTL := 3600, OwnerKey := [1], Signature := [2] }

/-- A concrete entropy source that always reads the byte `7`. -/
def sampleEntropy : Fin 32 → Nat := fun _ => 7

/-- Concrete randomness contributions for epoch 7 from three senders. -/
def sampleContribA : Contribution := { epoch := 7, sender := "a", sv := 1, rv := 2 }

/-- Second sample contribution. -/
def sampleContribB : Contribution := { epoch := 7, sender := "b", sv := 3, rv := 4 }

/-- Third sample contribution. -/
def sampleContribC : Contribution := { epoch := 7, sender := "c", sv := 5, rv := 6 }

/-! ### Lemmas about the epoch table update -/

/-- Reading the inner map is reading the table cell. -/
theorem innerMap_eq_lookupER (tbl : EpochTable) (e : Int) (p : String) :
    innerMap tbl e p = lookupER tbl e p := by
  simp only [innerMap, lookupER]
  cases tbl e <;> rfl

/-- The update does not touch inner maps of other epochs. -/
theorem innerMap_upd_ne {e' e : Int} (p : String) (sv rv : Int) (tbl : EpochTable)
    (h : e' ≠ e) :
    innerMap (RandomNumberHandlerTbl e p sv rv tbl) e' = innerMap tbl e' := by
  simp only [innerMap, RandomNumberHandlerTbl, if_neg h]

/-- The updated inner map at the written epoch. -/
theorem innerMap_upd_eq (e : Int) (p : String) (sv rv : Int) (tbl : EpochTable) :
    innerMap (RandomNumberHandlerTbl e p sv rv tbl) e =
      fun q => if q = p then some ⟨sv, rv⟩ else innerMap tbl e q := by
  simp [innerMap, RandomNumberHandlerTbl]

/-- Pointwise value of the update at the written epoch. -/
theorem upd_apply_eq (e : Int) (p : String) (sv rv : Int) (tbl : EpochTable) :
    RandomNumberHandlerTbl e p sv rv tbl e =
      some fun q => if q = p then some ⟨sv, rv⟩ else innerMap tbl e q := by
  simp [RandomNumberHandlerTbl]

/-- Pointwise value of the update away from the written epoch. -/
theorem upd_apply_ne (e : Int) (p : String) (sv rv : Int) (tbl : EpochTable)
    (x : Int) (h : x ≠ e) :
    RandomNumberHandlerTbl e p sv rv tbl x = tbl x := by
  simp [RandomNumberHandlerTbl, h]

/-- After the update, the written cell holds the written values. -/
theorem lookupER_upd_eq (e : Int) (p : String) (sv rv : Int) (tbl : EpochTable) :
    lookupER (RandomNumberHandlerTbl e p sv rv tbl) e p = some ⟨sv, rv⟩ := by
  simp [lookupER, RandomNumberHandlerTbl]

/-- The update leaves every other cell unchanged. -/
theorem lookupER_upd_ne (e : Int) (p : String) (sv rv : Int) (tbl : EpochTable)
    (e' : Int) (p' : String) (h : ¬(e' = e ∧ p' = p)) :
    lookupER (RandomNumberHandlerTbl e p sv rv tbl) e' p' = lookupER tbl e' p' := by
  by_cases he : e' = e
  · subst he
    have hp : p' ≠ p := fun hp => h ⟨rfl, hp⟩
    simp only [lookupER, upd_apply_eq, if_neg hp]
    cases htbl : tbl e' <;> simp [innerMap, htbl]
  · simp only [lookupER, upd_apply_ne _ _ _ _ _ _ he]

/-- Writing the same cell with the same values twice is the same as once. -/
theorem upd_idem (e : Int) (p : String) (sv rv : Int) (tbl : EpochTable) :
    RandomNumberHandlerTbl e p sv rv (RandomNumberHandlerTbl e p sv rv tbl)
      = RandomNumberHandlerTbl e p sv rv tbl := by
  funext x
  by_cases hx : x = e
  · subst hx
    rw [upd_apply_eq, upd_apply_eq]
    refine congrArg some (funext fun q => ?_)
    simp only [innerMap_upd_eq]
    by_cases hq : q = p <;> simp [hq]
  · rw [upd_apply_ne _ _ _ _ _ _ hx, upd_apply_ne _ _ _ _ _ _ hx]

/-- Updates at distinct `(epoch, sender)` cells commute. -/
theorem upd_comm (e₁ : Int) (p₁ : String) (v₁ w₁ : Int) (e₂ : Int) (p₂ : String)
    (v₂ w₂ : Int) (tbl : EpochTable) (h : ¬(e₁ = e₂ ∧ p₁ = p₂)) :
    RandomNumberHandlerTbl e₂ p₂ v₂ w₂ (RandomNumberHandlerTbl e₁ p₁ v₁ w₁ tbl)
      = RandomNumberHandlerTbl e₁ p₁ v₁ w₁ (RandomNumberHandlerTbl e₂ p₂ v₂ w₂ tbl) := by
  funext x
  by_cases h12 : e₁ = e₂
  · subst h12
    have hp : p₁ ≠ p₂ := fun hp => h ⟨rfl, hp⟩
    by_cases hx : x = e₁
    · subst hx
      rw [upd_apply_eq, upd_apply_eq]
      refine congrArg some (funext fun q => ?_)
      simp only [innerMap_upd_eq]
      by_cases hq2 : q = p₂ <;> by_cases hq1 : q = p₁
      · exact absurd (hq1.symm.trans hq2) hp
      · simp [hq1, hq2, Ne.symm hp]
      · simp [hq1, hq2, hp]
      · simp [hq1, hq2]
    · rw [upd_apply_ne _ _ _ _ _ _ hx, upd_apply_ne _ _ _ _ _ _ hx,
        upd_apply_ne _ _ _ _ _ _ hx, upd_apply_ne _ _ _ _ _ _ hx]
  · by_cases hx1 : x = e₁ <;> by_cases hx2 : x = e₂
    · exact absurd (hx1.symm.trans hx2) h12
    · subst hx1
      rw [upd_apply_ne e₂ p₂ v₂ w₂ _ _ hx2, upd_apply_eq, upd_apply_eq]
      simp only [innerMap_upd_ne p₂ v₂ w₂ tbl h12]
    · subst hx2
      have h21 : x ≠ e₁ := hx1
      rw [upd_apply_ne e₁ p₁ v₁ w₁ _ _ hx1, upd_apply_eq, upd_apply_eq]
      simp only [innerMap_upd_ne p₁ v₁ w₁ tbl h21]
    · rw [upd_apply_ne _ _ _ _ _ _ hx2, upd_apply_ne _ _ _ _ _ _ hx1,
        upd_apply_ne _ _ _ _ _ _ hx1, upd_apply_ne _ _ _ _ _ _ hx2]

/-- Handler applications at distinct `(epoch, sender)` keys commute. -/
theorem applyContribution_comm (t : EpochTable) (c d : Contribution)
    (h : c.key ≠ d.key) :
    applyContribution (applyContribution t c) d
      = applyContribution (applyContribution t d) c := by
  refine upd_comm c.epoch c.sender c.sv c.rv d.epoch d.sender d.sv d.rv t ?_
  rintro ⟨he, hp⟩
  exact h (by simp [Contribution.key, he, hp])

/-- Unfolding one step of `applyAll`. -/
theorem applyAll_cons (c : Contribution) (l : List Contribution) (tbl : EpochTable) :
    applyAll (c :: l) tbl = applyAll l (applyContribution tbl c) := rfl

/-- Cells whose key no contribution carries are untouched by `applyAll`. -/
theorem applyAll_lookup_not_mem (l : List Contribution) :
    ∀ (t : EpochTable) (e : Int) (p : String),
      (∀ c ∈ l, c.key ≠ (e, p)) → lookupER (applyAll l t) e p = lookupER t e p := by
  induction l with
  | nil => intro t e p _; rfl
  | cons d rest ih =>
    intro t e p h
    rw [applyAll_cons, ih _ e p (fun c hc => h c (List.mem_cons_of_mem _ hc))]
    refine lookupER_upd_ne d.epoch d.sender d.sv d.rv t e p ?_
    rintro ⟨he, hp⟩
    exact h d (List.mem_cons_self _ _) (by simp [Contribution.key, he, hp])

/-- With pairwise-distinct keys, every contribution ends up in its own cell. -/
theorem applyAll_lookup_mem (l : List Contribution) :
    ∀ (t : EpochTable), (l.map Contribution.key).Nodup →
      ∀ c ∈ l, lookupER (applyAll l t) c.epoch c.sender = some ⟨c.sv, c.rv⟩ := by
  induction l with
  | nil => intro t _ c hc; cases hc
  | cons d rest ih =>
    intro t hnd c hc
    simp only [List.map_cons, List.nodup_cons] at hnd
    rw [applyAll_cons]
    rcases List.mem_cons.mp hc with hcd | hcr
    · have hk : ∀ c' ∈ rest, c'.key ≠ (d.epoch, d.sender) := by
        intro c' hc' hkey
        have hkk : c'.key = d.key := hkey
        exact hnd.1 (hkk ▸ List.mem_map_of_mem Contribution.key hc')
      rw [hcd, applyAll_lookup_not_mem rest _ _ _ hk]
      exact lookupER_upd_eq d.epoch d.sender d.sv d.rv t
    · exact ih _ hnd.2 c hcr

/-! ### Claim theorems -/

/-- Claim C1 (counterexample): for a gossip envelope of type `Transaction`
whose payload fails to decode, the claim says the handler is not invoked with
a zero-valued payload; but `HandleGossip`'s `MsgTransaction` case has no
`continue` after the error log, so `AddTransaction` runs on the zero-valued
`Transaction` — its pool insertion appears in the trace. -/
theorem gossipTransactionDecodeFailure_cex :
    Event.poolInsert zeroTransaction ∈
      (handleGossipStep
        { MType := .MsgTransaction, Content := .garbage, Sender := "peerA" }
        sampleState).2 := by
  decide

/-- Claim C1 (amended): every decode failure is logged, the dispatch loop
continues with the next message and no error propagates outward; the
`RandomNumber` gossip case skips its handler on decode failure, but the
`DNSRequest`, `Transaction` and `Block` gossip cases and the `/dns-response`
payload decode still invoke the corresponding handler with the zero-valued
payload; only the direct stream's envelope-level decode failure skips its
handler. -/
theorem gossipDecodeFailure_logged_and_continues
    (msg : GossipMessage) (s : NodeState) (rest : List GossipMessage) :
    (msg.MType = .MsgRandomNumber → decodeRnd msg.Content = none →
      handleGossipStep msg s = (s, [.logDecodeFailure]))
    ∧ (msg.MType = .MsgTransaction → decodeTx msg.Content = none →
      handleGossipStep msg s =
        ((AddTransaction zeroTransaction s).1,
         .logDecodeFailure :: (AddTransaction zeroTransaction s).2))
    ∧ (msg.MType = .DNSRequest → decodeReq msg.Content = none →
      handleGossipStep msg s =
        ((DNSRequestHandler zeroBDNSRequest msg.Sender s).1,
         .logDecodeFailure :: (DNSRequestHandler zeroBDNSRequest msg.Sender s).2))
    ∧ (msg.MType = .MsgBlock → decodeBlock msg.Content = none →
      handleGossipStep msg s =
        ((AddBlock zeroBlock s).1, .logDecodeFailure :: (AddBlock zeroBlock s).2))
    ∧ ListenForDirectMessages none s = (s, [.logDecodeFailure, .streamClosed])
    ∧ (∀ env : GossipMessage, env.MType = .DNSResponse → decodeRes env.Content = none →
      ListenForDirectMessages (some env) s =
        ((DNSResponseHandler zeroBDNSResponse s).1,
         .logDecodeFailure :: (DNSResponseHandler zeroBDNSResponse s).2 ++ [.streamClosed]))
    ∧ HandleGossip (msg :: rest) s =
        ((HandleGossip rest (handleGossipStep msg s).1).1,
         (handleGossipStep msg s).2 ++ (HandleGossip rest (handleGossipStep msg s).1).2) := by
  refine ⟨?_, ?_, ?_, ?_, rfl, ?_, rfl⟩
  · intro hty hdec
    cases msg with
    | mk ty content snd =>
      cases hty
      simp [handleGossipStep, hdec]
  · intro hty hdec
    cases msg with
    | mk ty content snd =>
      cases hty
      simp [handleGossipStep, hdec]
  · intro hty hdec
    cases msg with
    | mk ty content snd =>
      cases hty
      simp [handleGossipStep, hdec]
  · intro hty hdec
    cases msg with
    | mk ty content snd =>
      cases hty
      simp [handleGossipStep, hdec]
  · intro env hty hdec
    cases env with
    | mk ty content snd =>
      cases hty
      simp [ListenForDirectMessages, hdec]

/-- Claim C1 (witness for the amended theorem): concrete garbage payloads
tagged `RandomNumber` and `Transaction`. -/
theorem gossipDecodeFailure_logged_and_continues_witness :
    (handleGossipStep { MType := .MsgRandomNumber, Content := .garbage, Sender := "p" }
        sampleState = (sampleState, [.logDecodeFailure]))
    ∧ (handleGossipStep { MType := .MsgTransaction, Content := .garbage, Sender := "p" }
        sampleState =
      ((AddTransaction zeroTransaction sampleState).1,
       .logDecodeFailure :: (AddTransaction zeroTransaction sampleState).2)) :=
  ⟨(gossipDecodeFailure_logged_and_continues
      { MType := .MsgRandomNumber, Content := .garbage, Sender := "p" } sampleState []).1
      rfl rfl,
   (gossipDecodeFailure_logged_and_continues
      { MType := .MsgTransaction, Content := .garbage, Sender := "p" } sampleState []).2.1
      rfl rfl⟩

/-- Claim C2: after invoking the randomness handler with `(E, P, s, r)`,
`EpochRandomTable[E][P]` equals `{s, r}`, and invoking the handler again with
the identical tuple leaves the entire node state unchanged (idempotence,
last-write-wins). -/
theorem randomNumberHandler_upsert_idempotent
    (e : Int) (p : String) (sv rv : Int) (s : NodeState) :
    lookupER (RandomNumberHandler e p sv rv s).1.EpochRandoms e p = some ⟨sv, rv⟩
    ∧ (RandomNumberHandler e p sv rv (RandomNumberHandler e p sv rv s).1).1
        = (RandomNumberHandler e p sv rv s).1 := by
  constructor
  · exact lookupER_upd_eq e p sv rv s.EpochRandoms
  · show ({ s with EpochRandoms :=
        (RandomNumberHandlerTbl e p sv rv
          (RandomNumberHandlerTbl e p sv rv s.EpochRandoms)) } : NodeState)
      = { s with EpochRandoms := RandomNumberHandlerTbl e p sv rv s.EpochRandoms }
    rw [upd_idem]

/-- Claim C3: both local broadcast operations apply the local state update
strictly before the outbound gossip send — in the effect trace of
`BroadcastRandomNumber` the epoch-table upsert (through the shared handler
entry point) sits at index 0 and the gossip send at index 1, and in the
trace of `BroadcastTransaction` the pool insertion sits at index 0 and the
gossip send at index 2. -/
theorem broadcast_localApply_before_gossipSend (cp : CommitmentPhaseFn)
    (epoch : Int) (rk : List Bytes) (tx : Transaction) (s : NodeState) :
    ((BroadcastRandomNumber cp epoch rk s).2.findIdx? isLocalApply = some 0
      ∧ (BroadcastRandomNumber cp epoch rk s).2.findIdx? isGossipSendEvent = some 1)
    ∧ ((BroadcastTransaction tx s).2.findIdx? isLocalApply = some 0
      ∧ (BroadcastTransaction tx s).2.findIdx? isGossipSendEvent = some 2) :=
  ⟨⟨rfl, rfl⟩, ⟨rfl, rfl⟩⟩

/-- Claim C4: on a received DNS query, if the domain is absent from the local
ledger index the responder sends nothing at all; if present, it sends a
`DomainRecord` built from the stored record's fields as a direct message to
the sender carried in the inbound gossip envelope (the dispatch loop passes
`msg.Sender` to the handler). -/
theorem dnsRequestHandler_lookup_spec (req : BDNSRequest) (sender : String)
    (s : NodeState) :
    (s.Index req.DomainName = none → DNSRequestHandler req sender s = (s, []))
    ∧ (∀ tx, s.Index req.DomainName = some tx →
        DNSRequestHandler req sender s =
          (s, [.directSend .DNSResponse
                { Timestamp := tx.Timestamp, DomainName := tx.DomainName, IP := tx.IP,
                  TTL := tx.TTL, OwnerKey := tx.OwnerKey, Signature := tx.Signature }
                sender]))
    ∧ (∀ (msg : GossipMessage) (r : BDNSRequest),
        msg.MType = .DNSRequest → decodeReq msg.Content = some r →
        handleGossipStep msg s = DNSRequestHandler r msg.Sender s) := by
  refine ⟨fun h => ?_, fun tx h => ?_, fun msg r hty hdec => ?_⟩
  · simp [DNSRequestHandler, h]
  · simp [DNSRequestHandler, h]
  · cases msg with
    | mk ty content snd =>
      cases hty
      simp [handleGossipStep, hdec]

/-- Claim C4 (witness): a node holding the `example.bdns` record responds to
a query for it with a direct message to `peerB`; the same node stays silent
on a query for an unknown domain. -/
theorem dnsRequestHandler_lookup_spec_witness :
    (sampleState.Index "missing.bdns" = none
      ∧ DNSRequestHandler { DomainName := "missing.bdns" } "peerB" sampleState
          = (sampleState, []))
    ∧ (sampleIndexState.Index "example.bdns" = some sampleRecord
      ∧ DNSRequestHandler { DomainName := "example.bdns" } "peerB" sampleIndexState =
          (sampleIndexState,
           [.directSend .DNSResponse
             { Timestamp := sampleRecord.Timestamp, DomainName := sampleRecord.DomainName,
               IP := sampleRecord.IP, TTL := sampleRecord.TTL,
               OwnerKey := sampleRecord.OwnerKey, Signature := sampleRecord.Signature }
             "peerB"])) :=
  ⟨⟨rfl, (dnsRequestHandler_lookup_spec { DomainName := "missing.bdns" } "peerB"
      sampleState).1 rfl⟩,
   ⟨rfl, (dnsRequestHandler_lookup_spec { DomainName := "example.bdns" } "peerB"
      sampleIndexState).2.1 sampleRecord rfl⟩⟩

/-- Claim C5: for contributions with pairwise-distinct `(epoch, sender)`
keys, applying the randomness handler in any order yields the same final
epoch table, containing each contributing sender's values in its own cell
and leaving every other cell untouched. -/
theorem randomnessTable_order_independent (l l' : List Contribution)
    (tbl : EpochTable) (hnd : (l.map Contribution.key).Nodup) (hperm : l.Perm l') :
    applyAll l tbl = applyAll l' tbl
    ∧ (∀ c ∈ l, lookupER (applyAll l tbl) c.epoch c.sender = some ⟨c.sv, c.rv⟩)
    ∧ (∀ e p, (∀ c ∈ l, c.key ≠ (e, p)) →
        lookupER (applyAll l tbl) e p = lookupER tbl e p) := by
  refine ⟨?_, fun c hc => applyAll_lookup_mem l tbl hnd c hc,
    fun e p h => applyAll_lookup_not_mem l tbl e p h⟩
  exact hperm.foldl_eq'
    (fun x hx y hy z => by
      by_cases hxy : x = y
      · subst hxy; rfl
      · exact applyContribution_comm z x y
          (fun hk => hxy (List.inj_on_of_nodup_map hnd hx hy hk)))
    tbl

/-- Claim C5 (witness): three distinct-sender contributions for epoch 7,
delivered in two different orders. -/
theorem randomnessTable_order_independent_witness :
    (([sampleContribA, sampleContribB, sampleContribC].map Contribution.key).Nodup
      ∧ [sampleContribA, sampleContribB, sampleContribC].Perm
          [sampleContribC, sampleContribA, sampleContribB])
    ∧ (applyAll [sampleContribA, sampleContribB, sampleContribC] emptyTable
        = applyAll [sampleContribC, sampleContribA, sampleContribB] emptyTable
      ∧ (∀ c ∈ [sampleContribA, sampleContribB, sampleContribC],
          lookupER (applyAll [sampleContribA, sampleContribB, sampleContribC] emptyTable)
            c.epoch c.sender = some ⟨c.sv, c.rv⟩)
      ∧ (∀ e p, (∀ c ∈ [sampleContribA, sampleContribB, sampleContribC], c.key ≠ (e, p)) →
          lookupER (applyAll [sampleContribA, sampleContribB, sampleContribC] emptyTable)
            e p = lookupER emptyTable e p)) :=
  ⟨⟨by decide, by decide⟩,
   randomnessTable_order_independent
     [sampleContribA, sampleContribB, sampleContribC]
     [sampleContribC, sampleContribA, sampleContribB]
     emptyTable (by decide) (by decide)⟩

/-- Claim C6: on the `"/dns-response"` direct stream, an envelope whose
`Type` is not `DNSResponse` is rejected — logged, stream closed, no reply
sent, handler not invoked (the trace is exactly the log and the close);
an envelope whose `Type` is `DNSResponse` with a decodable payload is
dispatched to the DNS-response handler. -/
theorem listenForDirectMessages_typeCheck (env : GossipMessage) (s : NodeState) :
    (env.MType ≠ .DNSResponse →
      ListenForDirectMessages (some env) s = (s, [.logInvalidType, .streamClosed]))
    ∧ (∀ res, env.MType = .DNSResponse → decodeRes env.Content = some res →
        ListenForDirectMessages (some env) s =
          (s, [.dnsResponseLogged res.DomainName res.IP, .streamClosed])) := by
  constructor
  · intro h
    simp [ListenForDirectMessages, h]
  · intro res hty hdec
    cases env with
    | mk ty content snd =>
      cases hty
      simp [ListenForDirectMessages, hdec, DNSResponseHandler]

/-- Claim C6 (witness): a wrong-typed envelope is rejected with no handler
event; a `DNSResponse` envelope reaches the handler. -/
theorem listenForDirectMessages_typeCheck_witness :
    (MessageType.MsgTransaction ≠ MessageType.DNSResponse
      ∧ ListenForDirectMessages
          (some { MType := .MsgTransaction, Content := .garbage, Sender := "p" })
          sampleState = (sampleState, [.logInvalidType, .streamClosed]))
    ∧ (decodeRes (Payload.res sampleResponse) = some sampleResponse
      ∧ ListenForDirectMessages
          (some { MType := .DNSResponse, Content := .res sampleResponse, Sender := "p" })
          sampleState =
        (sampleState,
         [.dnsResponseLogged sampleResponse.DomainName sampleResponse.IP, .streamClosed])) :=
  ⟨⟨by decide,
    (listenForDirectMessages_typeCheck
      { MType := .MsgTransaction, Content := .garbage, Sender := "p" } sampleState).1
      (by decide)⟩,
   ⟨rfl,
    (listenForDirectMessages_typeCheck
      { MType := .DNSResponse, Content := .res sampleResponse, Sender := "p" } sampleState).2
      sampleResponse rfl rfl⟩⟩

/-- Claim C7: `BroadcastRandomNumber` runs the commitment phase over the
node's full registry key set, extracts its own entry under the hex encoding
of its public key, applies it locally through the shared handler, and
broadcasts a `RandomNumberMsg` carrying exactly the epoch, that entry's
secret and random values, and the node's public key as sender. -/
theorem broadcastRandomNumber_message_spec (cp : CommitmentPhaseFn) (epoch : Int)
    (rk : List Bytes) (s : NodeState) :
    BroadcastRandomNumber cp epoch rk s =
      (let sv := ((cp s.RegistryKeys).2 (hexEncode s.KeyPairPub)).getD ⟨0, 0⟩
       ((RandomNumberHandler epoch (hexEncode s.KeyPairPub)
           sv.SecretValue sv.RandomValue s).1,
        (RandomNumberHandler epoch (hexEncode s.KeyPairPub)
           sv.SecretValue sv.RandomValue s).2 ++
          [.gossipSend .MsgRandomNumber (.rnd
            { Epoch := epoch, SecretValue := sv.SecretValue,
              RandomValue := sv.RandomValue, Sender := s.KeyPairPub })])) := rfl

/-- Claim C8: a failure of the underlying random-byte generation makes
`GenerateRandomNumber` terminate the process (`log.Panic`); on success the
node stores and returns the 32 bytes read. -/
theorem generateRandomNumber_entropy_spec (entropy : Option (Fin 32 → Nat))
    (s : NodeState) :
    (entropy = none → GenerateRandomNumber entropy s = .panicked)
    ∧ (∀ f, entropy = some f →
        GenerateRandomNumber entropy s =
          .ok { s with RandomNumber := List.ofFn f } (List.ofFn f)
        ∧ (List.ofFn f).length = 32) := by
  constructor
  · intro h; subst h; rfl
  · intro f h; subst h
    exact ⟨rfl, List.length_ofFn f⟩

/-- Claim C8 (witness): a failing entropy source panics; a working one
stores a 32-byte value. -/
theorem generateRandomNumber_entropy_spec_witness :
    (GenerateRandomNumber none sampleState = .panicked)
    ∧ (GenerateRandomNumber (some sampleEntropy) sampleState =
        .ok { sampleState with RandomNumber := List.ofFn sampleEntropy }
          (List.ofFn sampleEntropy)
      ∧ (List.ofFn sampleEntropy).length = 32) :=
  ⟨(generateRandomNumber_entropy_spec none sampleState).1 rfl,
   (generateRandomNumber_entropy_spec (some sampleEntropy) sampleState).2
     sampleEntropy rfl⟩

/-- Claim C9: the `registryKeys` parameter of `BroadcastRandomNumber` is
dead — any two argument values yield the identical state change and
broadcast, because the commitment phase reads `n.RegistryKeys` instead. -/
theorem broadcastRandomNumber_ignores_registryKeys_arg (cp : CommitmentPhaseFn)
    (epoch : Int) (rk₁ rk₂ : List Bytes) (s : NodeState) :
    BroadcastRandomNumber cp epoch rk₁ s = BroadcastRandomNumber cp epoch rk₂ s := rfl

/-- Claim C10: `RandomNumberHandler(E, P, s, r)` writes only the single
`(E, P)` cell: every other epoch-table cell and all other node state (pool,
slot-leader table, blockchain reference, stored random bytes, identity,
registry keys, ledger index) are unchanged. -/
theorem randomNumberHandler_frame (e : Int) (p : String) (sv rv : Int)
    (s : NodeState) (e' : Int) (p' : String) (h : ¬(e' = e ∧ p' = p)) :
    (RandomNumberHandler e p sv rv s).1.TransactionPool = s.TransactionPool
    ∧ (RandomNumberHandler e p sv rv s).1.SlotLeaders = s.SlotLeaders
    ∧ (RandomNumberHandler e p sv rv s).1.Blockchain = s.Blockchain
    ∧ (RandomNumberHandler e p sv rv s).1.RandomNumber = s.RandomNumber
    ∧ (RandomNumberHandler e p sv rv s).1.RegistryKeys = s.RegistryKeys
    ∧ (RandomNumberHandler e p sv rv s).1.KeyPairPub = s.KeyPairPub
    ∧ (RandomNumberHandler e p sv rv s).1.Index = s.Index
    ∧ lookupER (RandomNumberHandler e p sv rv s).1.EpochRandoms e' p'
        = lookupER s.EpochRandoms e' p' :=
  ⟨rfl, rfl, rfl, rfl, rfl, rfl, rfl,
   lookupER_upd_ne e p sv rv s.EpochRandoms e' p' h⟩

/-- Claim C10 (witness): writing cell `(1, "a")` leaves cell `(0, "b")` and
all other state of a concrete node unchanged. -/
theorem randomNumberHandler_frame_witness :
    ¬((0 : Int) = 1 ∧ "b" = "a")
    ∧ ((RandomNumberHandler 1 "a" 2 3 sampleState).1.TransactionPool
          = sampleState.TransactionPool
      ∧ (RandomNumberHandler 1 "a" 2 3 sampleState).1.SlotLeaders
          = sampleState.SlotLeaders
      ∧ (RandomNumberHandler 1 "a" 2 3 sampleState).1.Blockchain
          = sampleState.Blockchain
      ∧ (RandomNumberHandler 1 "a" 2 3 sampleState).1.RandomNumber
          = sampleState.RandomNumber
      ∧ (RandomNumberHandler 1 "a" 2 3 sampleState).1.RegistryKeys
          = sampleState.RegistryKeys
      ∧ (RandomNumberHandler 1 "a" 2 3 sampleState).1.KeyPairPub
          = sampleState.KeyPairPub
      ∧ (RandomNumberHandler 1 "a" 2 3 sampleState).1.Index = sampleState.Index
      ∧ lookupER (RandomNumberHandler 1 "a" 2 3 sampleState).1.EpochRandoms 0 "b"
          = lookupER sampleState.EpochRandoms 0 "b") :=
  ⟨by decide, randomNumberHandler_frame 1 "a" 2 3 sampleState 0 "b" (by decide)⟩

end BDNS
